import Mathlib

/-!
Verification of the market-intel analysis engine
(`nanobot/skills/market_intel/market_data.py`).

Numbers are modelled as exact rationals (`ℚ`).  Python dictionaries whose
keys may be absent are modelled as structures of `Option` fields, with
`Option.getD` playing the role of `dict.get(key, default)`.  The two
outbound network calls and the `random` module are modelled by injected
parameters (a response that is `none` on transport failure, and a record
of the random draws).  Operations that can raise in Python (attribute
access on `None`, division by zero, list indexing) are modelled with
`Except`, and the public entry point catches the error exactly as the
Python `try/except` does.
-/

/-- Successive differences `prices[i] - prices[i-1]`, as produced by the
`for i in range(1, len(prices))` loop of `_calc_rsi`. -/
def diffs : List ℚ → List ℚ
  | a :: b :: rest => (b - a) :: diffs (b :: rest)
  | _ => []

/-- One step of Wilder smoothing: `avg = (avg*13 + new)/14`, applied to the
(gain, loss) pair in lockstep as the Python loop does. -/
def wilderStep (p : ℚ × ℚ) (gl : ℚ × ℚ) : ℚ × ℚ :=
  ((p.1 * 13 + gl.1) / 14, (p.2 * 13 + gl.2) / 14)

/-- The `gains` list of `_calc_rsi`: the positive changes, zero otherwise. -/
def gainsOf (ds : List ℚ) : List ℚ := ds.map (fun c => if 0 < c then c else 0)

/-- The `losses` list of `_calc_rsi`: `abs(change)` for non-positive
changes, zero otherwise. -/
def lossesOf (ds : List ℚ) : List ℚ := ds.map (fun c => if 0 < c then 0 else -c)

/-- The `avg_gain`/`avg_loss` pair of `_calc_rsi`: seeded from the first 14
entries, then smoothed in lockstep over entries 14 and beyond. -/
def rsiAvgs (gains losses : List ℚ) : ℚ × ℚ :=
  ((gains.drop 14).zip (losses.drop 14)).foldl wilderStep
    ((gains.take 14).sum / 14, (losses.take 14).sum / 14)

/-- `MarketIntelFetcher._calc_rsi`: neutral 50 below 14 samples, otherwise
Wilder's RSI seeded from the first 14 differences and smoothed over the
remaining ones; 100 when the average loss is zero. -/
def calc_rsi (prices : List ℚ) : ℚ :=
  if prices.length < 14 then 50
  else if (rsiAvgs (gainsOf (diffs prices)) (lossesOf (diffs prices))).2 = 0 then 100
  else 100 - 100 /
    (1 + (rsiAvgs (gainsOf (diffs prices)) (lossesOf (diffs prices))).1 /
      (rsiAvgs (gainsOf (diffs prices)) (lossesOf (diffs prices))).2)

/-- The tail of the EMA series: `ema.append((price - ema[-1]) * multiplier + ema[-1])`
for each remaining price. -/
def emaFrom (mult last : ℚ) : List ℚ → List ℚ
  | [] => []
  | p :: ps => ((p - last) * mult + last) :: emaFrom mult ((p - last) * mult + last) ps

/-- `MarketIntelFetcher._calc_ema`: empty below `period` samples, otherwise
seeded with the simple average of the first `period` prices and extended
with multiplier `2/(period+1)`. -/
def calc_ema (prices : List ℚ) (period : ℕ) : List ℚ :=
  if prices.length < period then []
  else
    ((prices.take period).sum / (period : ℚ)) ::
      emaFrom (2 / ((period : ℚ) + 1)) ((prices.take period).sum / (period : ℚ))
        (prices.drop period)

/-- `MarketIntelFetcher._analyze_trend`: last value of each non-empty EMA
series; Bullish iff the price is above all of them, Bearish iff below all,
Neutral otherwise or when no series is available. -/
def analyze_trend (current : ℚ) (emas : List (List ℚ)) : String :=
  let ema_values := emas.filterMap (fun e => e.getLast?)
  if ema_values.isEmpty then "Neutral"
  else
    let above := (ema_values.filter (fun e => current > e)).length
    let below := (ema_values.filter (fun e => current < e)).length
    if above = ema_values.length then "Bullish"
    else if below = ema_values.length then "Bearish"
    else "Neutral"

/-- The five key levels computed inline in `fetch_tradingview_data`. -/
structure KeyLevels where
  pivot : ℚ
  s1 : ℚ
  s2 : ℚ
  r1 : ℚ
  r2 : ℚ
  deriving DecidableEq, Repr

/-- The `key_levels` arithmetic of `fetch_tradingview_data`:
pivot `(high+low+current)/3`, `s1 = current*2 - high`,
`s2 = current - (high-low)`, `r1 = current*2 - low`,
`r2 = current + (high-low)`. -/
def deriveLevels (current high low : ℚ) : KeyLevels :=
  { pivot := (high + low + current) / 3
    s1 := current * 2 - high
    s2 := current - (high - low)
    r1 := current * 2 - low
    r2 := current + (high - low) }

/-- The risk classification inlined in `_format_risk_only`:
High when `rsi > 70 or rsi < 30`, Low when `40 < rsi < 60`,
Medium otherwise. -/
def scoreRisk (rsi : ℚ) : String :=
  if rsi > 70 ∨ rsi < 30 then "High"
  else if 40 < rsi ∧ rsi < 60 then "Low"
  else "Medium"

/-- `MarketIntelSkill._calc_confidence`: one point each for a non-neutral
trend, RSI strictly between 40 and 60, and at least one news item. -/
def calc_confidence (trend : String) (rsi : ℚ) (newsCount : ℕ) : String :=
  let confidence : ℕ :=
    (if trend ≠ "Neutral" then 1 else 0) +
    (if 40 < rsi ∧ rsi < 60 then 1 else 0) +
    (if 0 < newsCount then 1 else 0)
  if confidence = 3 then "High"
  else if confidence = 2 then "Medium"
  else "Low"

/-- `MarketIntelSkill._calc_risk_warning`. -/
def calc_risk_warning (rsi : ℚ) : String :=
  if rsi > 80 ∨ rsi < 20 then "Overbought/Oversold - reversal risk"
  else if rsi > 70 ∨ rsi < 30 then "Extended - caution"
  else "Normal trading conditions"

/-! ## Data model: Python dicts with possibly-absent keys -/

/-- One OHLCV row of the TradingView response: the code indexes
`c[1]=open, c[2]=high, c[3]=low, c[4]=close, c[5]=volume`. -/
structure Candle where
  t : ℚ
  o : ℚ
  h : ℚ
  l : ℚ
  c : ℚ
  v : ℚ
  deriving DecidableEq, Repr

/-- The `key_levels` sub-dict; every key may be absent when the consumer
reads it with `.get('s1', 0)` etc. -/
structure KeyLevelsDict where
  pivot : Option ℚ
  s1 : Option ℚ
  s2 : Option ℚ
  r1 : Option ℚ
  r2 : Option ℚ
  deriving DecidableEq, Repr

/-- The empty dict `{}` used as default in `tradingview.get('key_levels', {})`. -/
def emptyKL : KeyLevelsDict := ⟨none, none, none, none, none⟩

/-- The dict returned by `fetch_tradingview_data` / `_mock_tradingview_data`.
All fields are optional: the formatters read them with `.get(..., default)`. -/
structure TVDict where
  symbol : Option String
  timeframe : Option String
  current_price : Option ℚ
  open_24h : Option ℚ
  high_24h : Option ℚ
  low_24h : Option ℚ
  volume_24h : Option ℚ
  change_24h : Option ℚ
  rsi : Option ℚ
  ema_20 : Option ℚ
  ema_50 : Option ℚ
  ema_200 : Option ℚ
  atr : Option ℚ
  trend : Option String
  key_levels : Option KeyLevelsDict
  last_50_candles : Option ℕ
  timestamp : Option String
  timezone : Option String
  source : Option String
  deriving DecidableEq, Repr

/-- The dict returned by `fetch_market_data` / `_mock_market_data`. -/
structure MarketDataDict where
  current_price : Option ℚ
  change_24h : Option ℚ
  volume_24h : Option ℚ
  spread : Option ℚ
  market : Option String
  source : Option String
  deriving DecidableEq, Repr

/-- A news record as built by `fetch_news` / `_mock_news` (all keys present). -/
structure NewsItem where
  title : String
  source : String
  published_at : String
  url : String
  domain : String
  importance : Int
  deriving DecidableEq, Repr

/-- A raw item of the CryptoPanic response, read with `.get(key, default)`. -/
structure NewsApiItem where
  title : Option String
  source_title : Option String
  published_at : Option String
  url : Option String
  domain : Option String
  importance : Option Int
  deriving DecidableEq, Repr

/-- The random draws consumed by `_mock_tradingview_data`. -/
structure MockRand where
  jitter : ℚ
  vol : ℚ
  change : ℚ
  rsi : ℚ
  coin1 : ℚ
  coin2 : ℚ
  deriving DecidableEq, Repr

/-- The random draws consumed by `_mock_market_data`. -/
structure MDRand where
  jitter : ℚ
  change : ℚ
  vol : ℚ
  spread : ℚ
  deriving DecidableEq, Repr

/-- The timestamp strings the code obtains from `datetime.now()`. -/
structure Clock where
  iso : String
  fmt : String
  t2h : String
  t8h : String
  t1d : String
  deriving DecidableEq, Repr

/-! ## String helpers (Python semantics) -/

/-- Whether the first char list starts the second. -/
def charsStart : List Char → List Char → Bool
  | [], _ => true
  | _ :: _, [] => false
  | a :: as, b :: bs => a = b && charsStart as bs

/-- Substring search on char lists. -/
def containsSub (needle : List Char) : List Char → Bool
  | [] => charsStart needle []
  | c :: t => charsStart needle (c :: t) || containsSub needle t

/-- Python `needle in hay` on strings. -/
def strIn (needle hay : String) : Bool := containsSub needle.data hay.data

/-- Python `max` over a list (only applied to non-empty lists in the code). -/
def pyMax : List ℚ → ℚ
  | [] => 0
  | a :: l => l.foldl max a

/-- Python `min` over a list (only applied to non-empty lists in the code). -/
def pyMin : List ℚ → ℚ
  | [] => 0
  | a :: l => l.foldl min a

/-- Insert a thousands separator every three digits of a reversed digit list. -/
def insCommas : List Char → ℕ → List Char
  | [], _ => []
  | c :: l, k => if k = 3 then ',' :: c :: insCommas l 1 else c :: insCommas l (k + 1)

/-- Python fixed-point float formatting `format(x, '[,][+].df')`: rounds to
`d` decimal places, optionally groups the integer part with commas,
optionally forces a sign on non-negative values. -/
def fmtQ (comma plus : Bool) (d : ℕ) (x : ℚ) : String :=
  let n : ℤ := round (|x| * (10 : ℚ) ^ d)
  let ds := (toString n.toNat).data
  let ds := if ds.length < d + 1 then List.replicate (d + 1 - ds.length) '0' ++ ds else ds
  let ip := ds.take (ds.length - d)
  let fp := ds.drop (ds.length - d)
  let ipStr := if comma then String.mk (insCommas ip.reverse 0).reverse else String.mk ip
  let sign := if x < 0 then "-" else if plus then "+" else ""
  sign ++ ipStr ++ (if d = 0 then "" else "." ++ String.mk fp)

/-! ## Fetchers -/

/-- `MarketIntelFetcher._mock_tradingview_data`: randomized snapshot around a
base price chosen from the symbol, stamped `source = 'mock_data'`. -/
def mock_tradingview_data (symbol timeframe : String) (r : MockRand) (nowIso : String) :
    TVDict :=
  let base_price : ℚ :=
    if strIn "BTC" symbol.toUpper then 50000
    else if strIn "ETH" symbol.toUpper then 2000 else 100
  let current := base_price + r.jitter
  { symbol := some symbol
    timeframe := some timeframe
    current_price := some current
    open_24h := some (current * 0.98)
    high_24h := some (current * 1.02)
    low_24h := some (current * 0.96)
    volume_24h := some r.vol
    change_24h := some r.change
    rsi := some r.rsi
    ema_20 := some (current * 0.99)
    ema_50 := some (current * 0.98)
    ema_200 := some (current * 0.95)
    atr := none
    trend := some (if r.coin1 < 0.5 then "Neutral"
      else if r.coin2 < 0.7 then "Bullish" else "Bearish")
    key_levels := some
      { pivot := some current
        s1 := some (current * 0.95)
        s2 := some (current * 0.90)
        r1 := some (current * 1.05)
        r2 := some (current * 1.10) }
    last_50_candles := some 50
    timestamp := some nowIso
    timezone := some "America/Los_Angeles"
    source := some "mock_data" }

/-- The success branch of `fetch_tradingview_data`, on a non-empty candle
list.  The only operation that can raise inside the `try` block after a
well-formed response is the `change_24h` division by `opens[-24]`. -/
def live_tradingview_data (symbol timeframe : String) (data : List Candle)
    (nowIso : String) : Except String TVDict :=
  let closes := data.map Candle.c
  let opens := data.map Candle.o
  let highs := data.map Candle.h
  let lows := data.map Candle.l
  let volumes := data.map Candle.v
  let rsi := calc_rsi (closes.drop (closes.length - 14))
  let ema_20 := calc_ema closes 20
  let ema_50 := calc_ema closes 50
  let ema_200 := calc_ema closes 200
  let current_price := closes.getLastD 0
  let high_24h := if 24 ≤ highs.length then pyMax (highs.drop (highs.length - 24)) else pyMax highs
  let low_24h := if 24 ≤ lows.length then pyMin (lows.drop (lows.length - 24)) else pyMin lows
  let volume_24h := if 24 ≤ volumes.length then (volumes.drop (volumes.length - 24)).sum else volumes.sum
  let change24 : Except String ℚ :=
    if 24 ≤ opens.length then
      if opens.getD (opens.length - 24) 0 = 0 then Except.error "float division by zero"
      else Except.ok ((current_price - opens.getD (opens.length - 24) 0) /
        opens.getD (opens.length - 24) 0 * 100)
    else Except.ok 0
  match change24 with
  | Except.error e => Except.error e
  | Except.ok change_24h =>
    let levels := deriveLevels current_price high_24h low_24h
    Except.ok
      { symbol := some symbol
        timeframe := some timeframe
        current_price := some current_price
        open_24h := some (if 24 ≤ opens.length then opens.getD (opens.length - 24) 0 else opens.headD 0)
        high_24h := some high_24h
        low_24h := some low_24h
        volume_24h := some volume_24h
        change_24h := some change_24h
        rsi := some rsi
        ema_20 := some (ema_20.getLastD 0)
        ema_50 := some (ema_50.getLastD 0)
        ema_200 := some (ema_200.getLastD 0)
        atr := none
        trend := some (analyze_trend current_price [ema_20, ema_50, ema_200])
        key_levels := some
          { pivot := some levels.pivot
            s1 := some levels.s1
            s2 := some levels.s2
            r1 := some levels.r1
            r2 := some levels.r2 }
        last_50_candles := some data.length
        timestamp := some nowIso
        timezone := some "America/Los_Angeles"
        source := none }

/-- `MarketIntelFetcher.fetch_tradingview_data`.  A transport failure is the
`none` response; a response that is not a well-formed non-empty list, or any
exception inside the `try` block, falls back to the mock snapshot. -/
def fetch_tradingview_data (symbol timeframe : String) (resp : Option (List Candle))
    (r : MockRand) (nowIso : String) : TVDict :=
  match resp with
  | none => mock_tradingview_data symbol timeframe r nowIso
  | some data =>
    if data.isEmpty then mock_tradingview_data symbol timeframe r nowIso
    else
      match live_tradingview_data symbol timeframe data nowIso with
      | Except.ok d => d
      | Except.error _ => mock_tradingview_data symbol timeframe r nowIso

/-- `MarketIntelFetcher._mock_market_data`. -/
def mock_market_data (symbol market : String) (r : MDRand) : MarketDataDict :=
  let base : ℚ :=
    if strIn "BTC" symbol.toUpper then 50000
    else if strIn "ETH" symbol.toUpper then 2000 else 100
  { current_price := some (base + r.jitter)
    change_24h := some r.change
    volume_24h := some r.vol
    spread := some r.spread
    market := some market
    source := some "mock" }

/-- `MarketIntelFetcher.fetch_market_data`: the CoinGecko response is
modelled as `none` on failure, otherwise `some apiData` where `apiData`
is `some (usd, usd_24h_change?)` when the symbol key is present. -/
def fetch_market_data (symbol market : String) (resp : Option (Option (ℚ × Option ℚ)))
    (r : MDRand) : MarketDataDict :=
  match resp with
  | none => mock_market_data symbol market r
  | some apiData =>
    if market = "crypto" then
      match apiData with
      | some usdChg =>
        { current_price := some usdChg.1
          change_24h := some (usdChg.2.getD 0)
          volume_24h := none
          spread := none
          market := some market
          source := some "coingecko" }
      | none => mock_market_data symbol market r
    else mock_market_data symbol market r

/-- `MarketIntelFetcher._mock_news`: three canned headlines built from the
symbol; `t2h`, `t8h`, `t1d` stand for the `datetime.now() - timedelta(...)`
timestamps. -/
def mock_news (symbol t2h t8h t1d : String) : List NewsItem :=
  [ { title := symbol ++ " shows resilience amid market volatility"
      source := "MarketWatch"
      published_at := t2h
      url := "https://example.com/news/article"
      domain := "marketwatch.com"
      importance := 2 }
  , { title := "Federal Reserve hints at policy shift affecting " ++ symbol
      source := "Forexlive"
      published_at := t8h
      url := "https://example.com/news/fed"
      domain := "forexlive.com"
      importance := 3 }
  , { title := "Technical analysis: " ++ symbol ++ " breakout above key resistance"
      source := "TradingView"
      published_at := t1d
      url := "https://example.com/news/tech"
      domain := "tradingview.com"
      importance := 1 } ]

/-- `MarketIntelFetcher.fetch_news`: at most 10 items are converted, at most
5 returned; an empty converted list under the `symbol+macro` scope, or any
exception, falls back to the canned headlines.  Note the duplicate `'url'`
key of the source dict literal: the second entry (default `'#'`) wins. -/
def fetch_news (symbol scope : String) (resp : Option (List NewsApiItem))
    (t2h t8h t1d : String) : List NewsItem :=
  match resp with
  | none => mock_news symbol t2h t8h t1d
  | some results =>
    let news := (results.take 10).map (fun item =>
      { title := item.title.getD ""
        source := item.source_title.getD "Unknown"
        published_at := item.published_at.getD ""
        url := item.url.getD "#"
        domain := item.domain.getD ""
        importance := item.importance.getD 0 })
    if news.isEmpty ∧ scope = "symbol+macro" then mock_news symbol t2h t8h t1d
    else news.take 5

/-! ## Report formatters -/

/-- `MarketIntelSkill._format_quick_bias`. -/
def format_quick_bias (symbol market timeframe : String) (tv : TVDict)
    (news : List NewsItem) : String :=
  "📊 " ++ symbol ++ " / " ++ market ++ " / " ++ timeframe ++ "\n" ++
  "💵 Price: $" ++ fmtQ true false 2 (tv.current_price.getD 0) ++ "\n" ++
  "📈 Bias: " ++ tv.trend.getD "Neutral" ++ "\n" ++
  "📊 RSI: " ++ fmtQ false false 1 (tv.rsi.getD 50) ++ "\n" ++
  (match news with
   | [] => ""
   | item :: _ => "📰 Latest: " ++ item.title.take 100 ++ "...\n")

/-- `MarketIntelSkill._format_risk_only`.  The ATR% line divides by
`tradingview.get('current_price', 1)`, which raises in Python when the
snapshot carries an explicit zero price. -/
def format_risk_only (symbol : String) (tv : TVDict) (md : MarketDataDict) :
    Except String String :=
  if tv.current_price.getD 1 = 0 then Except.error "float division by zero"
  else Except.ok (
    "⚠️  " ++ symbol ++ " Risk Assessment\n" ++
    "========================\n\n" ++
    "📊 Volatility (ATR): " ++ fmtQ false false 2 (tv.atr.getD 0 / tv.current_price.getD 1 * 100) ++ "%\n" ++
    "💰 Volume (24h): $" ++ fmtQ true false 0 (md.volume_24h.getD 0) ++ "\n" ++
    "📏 Spread: $" ++ fmtQ false false 2 (md.spread.getD 0) ++ "\n" ++
    "\n🎯 Key Levels:\n" ++
    "   Support: $" ++ fmtQ true false 2 ((tv.key_levels.getD emptyKL).s1.getD 0) ++ "\n" ++
    "   Resistance: $" ++ fmtQ true false 2 ((tv.key_levels.getD emptyKL).r1.getD 0) ++ "\n" ++
    "\n🚨 Risk Level: " ++ scoreRisk (tv.rsi.getD 50) ++ "\n")

/-- The `for i, item in enumerate(news[:5], 1)` loop of
`_format_news_briefing`. -/
def newsLines : ℕ → List NewsItem → String
  | _, [] => ""
  | i, item :: rest =>
    "\n" ++ toString i ++ ". " ++ item.title.take 120 ++
    (if 120 < item.title.length then "..." else "") ++
    "\n   " ++ item.source ++ " - " ++ item.published_at.take 16 ++
    newsLines (i + 1) rest

/-- `MarketIntelSkill._format_news_briefing`. -/
def format_news_briefing (symbol : String) (news : List NewsItem)
    (md : MarketDataDict) : String :=
  "📰 " ++ symbol ++ " News Briefing\n" ++
  "===================\n\n" ++
  "Market Status: $" ++ fmtQ true false 2 (md.current_price.getD 0) ++
  " (" ++ fmtQ false true 2 (md.change_24h.getD 0) ++ "%)\n" ++
  "\n📄 Latest Headlines:\n" ++
  newsLines 1 (news.take 5)

/-- One entry of the news map of `_format_full_plan`. -/
def newsMapLine (item : NewsItem) : String :=
  "   ➜ " ++ item.title.take 80 ++ "\n     " ++ item.source ++ " | " ++
  item.published_at.take 16

/-- `MarketIntelSkill._format_full_plan`.  Every snapshot read uses a
default except `tradingview.get('timezone').split('/')[1]`, which raises an
`AttributeError` on a missing timezone (and an `IndexError` when the value
has no slash); the whole f-string then raises, which the entry point later
catches. -/
def format_full_plan (symbol market timeframe : String) (tv : TVDict)
    (md : MarketDataDict) (news : List NewsItem) (nowFmt : String) :
    Except String String :=
  match tv.timezone with
  | none => Except.error "NoneType object has no attribute split"
  | some tz =>
    match (tz.splitOn "/").get? 1 with
    | none => Except.error "list index out of range"
    | some region =>
      let current := tv.current_price.getD 0
      Except.ok (
        "\n📈 " ++ symbol ++ " Trade Plan\n" ++
        "======================\n\n" ++
        "1) SNAPSHOT (NOW)\n" ++
        "┌───────────────────┐\n" ++
        "Symbol: " ++ symbol ++ "\n" ++
        "Market: " ++ market ++ "\n" ++
        "Timeframe: " ++ timeframe ++ "\n" ++
        "Time: " ++ nowFmt ++ "\n\n" ++
        "Price: $" ++ fmtQ true false 2 current ++ "\n" ++
        "24h Change: " ++ fmtQ false true 2 (tv.change_24h.getD 0) ++ "%\n" ++
        "Volume: $" ++ fmtQ true false 0 (tv.volume_24h.getD 1000000) ++ "\n\n" ++
        "Key Levels:\n" ++
        "  Support: $" ++ fmtQ true false 2 ((tv.key_levels.getD emptyKL).s1.getD 0) ++ "\n" ++
        "  Pivot: $" ++ fmtQ true false 2 ((tv.key_levels.getD emptyKL).pivot.getD 0) ++ "\n" ++
        "  Resistance: $" ++ fmtQ true false 2 ((tv.key_levels.getD emptyKL).r1.getD 0) ++ "\n" ++
        "└───────────────────┘\n\n" ++
        "2) TECHNICAL READ\n" ++
        "┌───────────────────┐\n" ++
        "Trend: " ++ tv.trend.getD "Neutral" ++ "\n\n" ++
        "Indicators:\n" ++
        "  RSI: " ++ fmtQ false false 1 (tv.rsi.getD 50) ++ "\n" ++
        "  EMA 20: $" ++ fmtQ true false 2 (tv.ema_20.getD 0) ++ "\n" ++
        "  EMA 50: $" ++ fmtQ true false 2 (tv.ema_50.getD 0) ++ "\n" ++
        "  EMA 200: $" ++ fmtQ true false 2 (tv.ema_200.getD 0) ++ "\n\n" ++
        "Trend Analysis: Price " ++
        (if tv.ema_200.getD 0 = 0 then "near"
         else if current > tv.ema_200.getD 0 then "above" else "below") ++
        " 200 EMA\n" ++
        "└───────────────────┘\n\n" ++
        "3) NEWS & CATALYST MAP\n" ++
        "┌───────────────────┐\n" ++
        "Found " ++ toString news.length ++ " relevant items:\n\n" ++
        String.intercalate "\n" ((news.take 3).map newsMapLine) ++ "\n" ++
        "└───────────────────┘\n\n" ++
        "4) TRADE SCENARIOS\n" ++
        "┌───────────────────┐\n\n" ++
        "🐂 BULL CASE:\n" ++
        "   Trigger: Break above $" ++ fmtQ true false 2 ((tv.key_levels.getD emptyKL).r1.getD 0) ++ "\n" ++
        "   Target: $" ++ fmtQ true false 2 ((tv.key_levels.getD emptyKL).r2.getD 0) ++ "\n" ++
        "   Invalidation: Close below $" ++ fmtQ true false 2 ((tv.key_levels.getD emptyKL).s1.getD 0) ++ "\n\n" ++
        "🐻 BEAR CASE:\n" ++
        "   Trigger: Break below $" ++ fmtQ true false 2 ((tv.key_levels.getD emptyKL).s1.getD 0) ++ "\n" ++
        "   Target: $" ++ fmtQ true false 2 ((tv.key_levels.getD emptyKL).s2.getD 0) ++ "\n" ++
        "   Invalidation: Close above $" ++ fmtQ true false 2 ((tv.key_levels.getD emptyKL).r1.getD 0) ++ "\n\n" ++
        "😐 CHOP CASE:\n" ++
        "   Range: $" ++ fmtQ true false 2 ((tv.key_levels.getD emptyKL).s1.getD 0) ++
        " - $" ++ fmtQ true false 2 ((tv.key_levels.getD emptyKL).r1.getD 0) ++ "\n" ++
        "   Action: Wait for breakout, avoid middle\n" ++
        "└───────────────────┘\n\n" ++
        "5) RISK NOTES\n" ++
        "┌───────────────────┐\n" ++
        "Confidence: " ++ calc_confidence (tv.trend.getD "Neutral") (tv.rsi.getD 50) news.length ++ "\n" ++
        "Volatility: Medium (ATR " ++ fmtQ true false 0 ((tv.key_levels.getD emptyKL).r1.getD 0 * 0.02) ++ ")\n" ++
        "Liquidity: Good\n" ++
        "Region: " ++ region ++ "\n" ++
        "Bias: " ++ tv.trend.getD "Neutral" ++ "\n\n" ++
        "Invalidation: Break of key level\n" ++
        "Caution: " ++ calc_risk_warning (tv.rsi.getD 50) ++ "\n" ++
        "└───────────────────┘\n")

/-! ## Orchestrator and public entry point -/

/-- `MarketIntelSkill._format_output`: dispatch on the output mode, with
`full trade plan` as the default branch. -/
def format_output (symbol market timeframe : String) (tv : TVDict)
    (md : MarketDataDict) (news : List NewsItem) (output_mode nowFmt : String) :
    Except String String :=
  if output_mode = "quick bias" then
    Except.ok (format_quick_bias symbol market timeframe tv news)
  else if output_mode = "risk-only" then format_risk_only symbol tv md
  else if output_mode = "news briefing" then
    Except.ok (format_news_briefing symbol news md)
  else format_full_plan symbol market timeframe tv md news nowFmt

/-- `MarketIntelSkill.analyze_symbol`: fetch chart data, market data and
news, then format. -/
def analyze_symbol (symbol market timeframe output_mode news_scope : String)
    (tvResp : Option (List Candle)) (mdResp : Option (Option (ℚ × Option ℚ)))
    (newsResp : Option (List NewsApiItem)) (tvRand : MockRand) (mdRand : MDRand)
    (ck : Clock) : Except String String :=
  format_output symbol market timeframe
    (fetch_tradingview_data symbol timeframe tvResp tvRand ck.iso)
    (fetch_market_data symbol market mdResp mdRand)
    (fetch_news symbol news_scope newsResp ck.t2h ck.t8h ck.t1d)
    output_mode ck.fmt

/-- The module-level `analyze_market` entry point: any exception raised by
the orchestration is caught and rendered as an error string. -/
def analyze_market (symbol market timeframe output_mode news_scope : String)
    (tvResp : Option (List Candle)) (mdResp : Option (Option (ℚ × Option ℚ)))
    (newsResp : Option (List NewsApiItem)) (tvRand : MockRand) (mdRand : MDRand)
    (ck : Clock) : String :=
  match analyze_symbol symbol market timeframe output_mode news_scope tvResp
      mdResp newsResp tvRand mdRand ck with
  | Except.ok result => result
  | Except.error e => "❌ MarketIntel error: " ++ e

/-! ## Specification-side definitions and concrete sample values -/

/-- The seed-only RSI value described by the refinement claim about the live
path: `100 - 100/(1 + G/L)` where `G` is the sum of the positive
differences divided by 14 and `L` the sum of the absolute negative
differences divided by 14, and exactly 100 when `L = 0`. -/
def rsiSeedOnly (prices : List ℚ) : ℚ :=
  if (lossesOf (diffs prices)).sum / 14 = 0 then 100
  else 100 - 100 /
    (1 + ((gainsOf (diffs prices)).sum / 14) / ((lossesOf (diffs prices)).sum / 14))

/-- Substring containment, the meaning of Python `needle in hay`. -/
def strContains (hay needle : String) : Prop :=
  ∃ s t : List Char, hay.data = s ++ needle.data ++ t

/-- A snapshot dict with every optional field absent. -/
def noneTV : TVDict :=
  ⟨none, none, none, none, none, none, none, none, none, none, none, none,
    none, none, none, none, none, none, none⟩

/-- A market-data dict with every field absent. -/
def noneMD : MarketDataDict := ⟨none, none, none, none, none, none⟩

/-- A fixed record of random draws. -/
def r0 : MockRand := ⟨0, 0, 0, 0, 0, 0⟩

/-- A fixed record of market-data random draws. -/
def mdr0 : MDRand := ⟨0, 0, 0, 0⟩

/-- A fixed clock. -/
def ck0 : Clock := ⟨"t", "t", "t", "t", "t"⟩

/-- A flat unit candle. -/
def candle1 : Candle := ⟨0, 1, 1, 1, 1, 1⟩

/-- A candle closing at 2. -/
def candle2 : Candle := ⟨0, 2, 2, 2, 2, 2⟩

/-- Fourteen flat candles: enough history for a seeded RSI. -/
def dataW : List Candle := List.replicate 14 candle1

/-- The snapshot the live path produces from `dataW`. -/
def dictW : TVDict :=
  { symbol := some "BTC"
    timeframe := some "1h"
    current_price := some 1
    open_24h := some 1
    high_24h := some 1
    low_24h := some 1
    volume_24h := some 14
    change_24h := some 0
    rsi := some 100
    ema_20 := some 0
    ema_50 := some 0
    ema_200 := some 0
    atr := none
    trend := some "Neutral"
    key_levels := some ⟨some 1, some 1, some 1, some 1, some 1⟩
    last_50_candles := some 14
    timestamp := some "t"
    timezone := some "America/Los_Angeles"
    source := none }

/-- A strictly increasing 14-sample price list. -/
def incList : List ℚ := [1, 2, 3, 4, 5, 6, 7, 8, 9, 10, 11, 12, 13, 14]

/-- A strictly decreasing 14-sample price list. -/
def decList : List ℚ := [14, 13, 12, 11, 10, 9, 8, 7, 6, 5, 4, 3, 2, 1]

/-- A flat 14-sample price list. -/
def flatList : List ℚ := List.replicate 14 (5 : ℚ)

/-! ## Sanity checks on concrete inputs -/

example : calc_rsi [1, 2] = 50 := by with_unfolding_all rfl
example : (calc_ema [1, 2, 3] 2) = [3/2, 5/2] := by with_unfolding_all rfl
example : analyze_trend 105 [[100], [102], [103]] = "Bullish" := by with_unfolding_all rfl
example : analyze_trend 95 [[100], [102]] = "Bearish" := by with_unfolding_all rfl
example : analyze_trend 100 [[95], [105]] = "Neutral" := by with_unfolding_all rfl
example : scoreRisk 50 = "Low" := by with_unfolding_all rfl
example : scoreRisk 75 = "High" := by with_unfolding_all rfl
example : fmtQ true false 2 0 = "0.00" := by with_unfolding_all rfl
example : fmtQ true false 2 1234567.891 = "1,234,567.89" := by with_unfolding_all rfl
example : fmtQ false false 1 50 = "50.0" := by with_unfolding_all rfl
example : fmtQ false true 2 (-5/4) = "-1.25" := by with_unfolding_all rfl
example : fmtQ false true 2 0 = "+0.00" := by with_unfolding_all rfl
example : fmtQ true false 0 1000000 = "1,000,000" := by with_unfolding_all rfl

/-! ## Helper lemmas -/

theorem append_ne_empty (a b : String) (ha : a ≠ "") : a ++ b ≠ "" := by
  intro hab
  have h2 : a.data ++ b.data = [] := by rw [← String.data_append, hab]
  have h3 : a.data = ([] : List Char) := (List.append_eq_nil.mp h2).1
  exact ha (String.ext (by rw [h3]))

theorem strContains_left {a n : String} (b : String) (h : strContains a n) :
    strContains (a ++ b) n := by
  obtain ⟨s, t, hst⟩ := h
  exact ⟨s, t ++ b.data, by rw [String.data_append, hst]; simp⟩

theorem strContains_append_self (a n : String) : strContains (a ++ n) n :=
  ⟨a.data, [], by rw [String.data_append]; simp⟩

theorem live_source_none {symbol tf nowIso : String} {data : List Candle}
    {d : TVDict} (h : live_tradingview_data symbol tf data nowIso = Except.ok d) :
    d.source = none := by
  simp only [live_tradingview_data] at h
  split at h <;> simp only [Except.ok.injEq, reduceCtorEq] at h <;> subst h <;> rfl

/-! ## C1: risk scoring bands -/

/-- C1 (amended): `scoreRisk` returns High iff rsi < 30 or rsi > 70, Low iff
40 < rsi < 60, and Medium on the closed bands [30,40] and [60,70]; in
particular 50 maps to Low, 65 to Medium, 75 and 25 to High, while the
boundary values 40 and 60 map to Medium (not Low as the claim states). -/
theorem C1_scoreRisk_bands (rsi : ℚ) :
    (70 < rsi ∨ rsi < 30 → scoreRisk rsi = "High") ∧
    (40 < rsi ∧ rsi < 60 → scoreRisk rsi = "Low") ∧
    ((30 ≤ rsi ∧ rsi ≤ 40) ∨ (60 ≤ rsi ∧ rsi ≤ 70) → scoreRisk rsi = "Medium") ∧
    scoreRisk 50 = "Low" ∧ scoreRisk 65 = "Medium" ∧ scoreRisk 75 = "High" ∧
    scoreRisk 25 = "High" ∧ scoreRisk 40 = "Medium" ∧ scoreRisk 60 = "Medium" := by
  refine ⟨?_, ?_, ?_, ?_, ?_, ?_, ?_, ?_, ?_⟩
  · intro h; unfold scoreRisk; rw [if_pos h]
  · intro h
    have h1 : ¬(rsi > 70 ∨ rsi < 30) := by rintro (c | c) <;> linarith [h.1, h.2]
    unfold scoreRisk; rw [if_neg h1, if_pos h]
  · intro h
    have h1 : ¬(rsi > 70 ∨ rsi < 30) := by
      rcases h with ⟨a, b⟩ | ⟨a, b⟩ <;> rintro (c | c) <;> linarith
    have h2 : ¬(40 < rsi ∧ rsi < 60) := by
      rcases h with ⟨a, b⟩ | ⟨a, b⟩ <;> rintro ⟨c, d⟩ <;> linarith
    unfold scoreRisk; rw [if_neg h1, if_neg h2]
  all_goals norm_num [scoreRisk]

/-- C1 witness: a concrete instantiation of the amended band theorem. -/
theorem C1_scoreRisk_bands_witness : scoreRisk 35 = "Medium" :=
  (C1_scoreRisk_bands 35).2.2.1 (Or.inl ⟨by norm_num, by norm_num⟩)

/-- C1 counterexample: the claim maps rsi = 40 to Low (inclusive band), but
the code's strict comparison `40 < rsi < 60` yields Medium at 40. -/
theorem C1_boundary_counterexample : scoreRisk 40 = "Medium" ∧ ¬scoreRisk 40 = "Low" := by
  have h : scoreRisk 40 = "Medium" := by norm_num [scoreRisk]
  exact ⟨h, by rw [h]; decide⟩

/-! ## C7: key-level arithmetic -/

/-- C7: `deriveLevels` is a total pure function returning exactly the five
pivot formulas, and `deriveLevels 100 110 90` gives pivot 100, s1 90, s2 80,
r1 110, r2 120. -/
theorem C7_deriveLevels_exact :
    (∀ current high low : ℚ, deriveLevels current high low =
      ⟨(high + low + current) / 3, 2 * current - high, current - (high - low),
        2 * current - low, current + (high - low)⟩) ∧
    deriveLevels 100 110 90 = ⟨100, 90, 80, 110, 120⟩ := by
  constructor
  · intro c h l
    unfold deriveLevels
    congr 1 <;> ring
  · unfold deriveLevels
    congr 1 <;> norm_num

/-! ## C8: the level ordering is not guaranteed -/

/-- C8: there is an input with low ≤ current ≤ high whose derived levels
violate support1 ≤ pivot ≤ resistance1 (current at the 24h high with a
strictly lower low gives support1 > pivot). -/
theorem C8_level_ordering_violated :
    ∃ current high low : ℚ, low ≤ current ∧ current ≤ high ∧
      ¬((deriveLevels current high low).s1 ≤ (deriveLevels current high low).pivot ∧
        (deriveLevels current high low).pivot ≤ (deriveLevels current high low).r1) := by
  have h1 : (deriveLevels 110 110 90).s1 = 110 := by norm_num [deriveLevels]
  have h2 : (deriveLevels 110 110 90).pivot = 310 / 3 := by norm_num [deriveLevels]
  refine ⟨110, 110, 90, by norm_num, le_refl _, ?_⟩
  rintro ⟨ha, -⟩
  rw [h1, h2] at ha
  norm_num at ha

/-! ## C9: news fetching -/

/-- C9 (amended): `fetch_news` is total, converts at most the first 10 raw
items and returns at most 5; a transport failure yields the three canned
headlines, and the result is non-empty whenever the source failed or the
scope is `symbol+macro` — but not in general (see the counterexample). -/
theorem C9_fetch_news_caps_and_fallback (symbol scope : String)
    (resp : Option (List NewsApiItem)) (t2h t8h t1d : String) :
    (fetch_news symbol scope resp t2h t8h t1d).length ≤ 5 ∧
    (resp = none → fetch_news symbol scope resp t2h t8h t1d = mock_news symbol t2h t8h t1d) ∧
    (mock_news symbol t2h t8h t1d).length = 3 ∧
    (∀ results, fetch_news symbol scope (some results) t2h t8h t1d =
      fetch_news symbol scope (some (results.take 10)) t2h t8h t1d) ∧
    ((resp = none ∨ scope = "symbol+macro") → fetch_news symbol scope resp t2h t8h t1d ≠ []) := by
  refine ⟨?_, ?_, rfl, ?_, ?_⟩
  · cases resp with
    | none => simp [fetch_news, mock_news]
    | some results =>
      simp only [fetch_news]
      split
      · simp [mock_news]
      · exact le_trans (List.length_take_le 5 _) (le_refl 5)
  · intro h; subst h; rfl
  · intro results
    simp [fetch_news, List.take_take]
  · intro h
    rcases h with h | h
    · subst h; simp [fetch_news, mock_news]
    · subst h
      cases resp with
      | none => simp [fetch_news, mock_news]
      | some results =>
        simp only [fetch_news]
        split
        · simp [mock_news]
        · next hcond =>
          intro hnil
          rcases List.take_eq_nil_iff.mp hnil with h5 | hmap
          · exact absurd h5 (by norm_num)
          · exact hcond ⟨by simp [hmap], by trivial⟩

/-- C9 witness: with a failed news source the canned fallback is returned
and the list is non-empty. -/
theorem C9_fetch_news_witness :
    fetch_news "BTC" "symbol-only" none "a" "b" "c" = mock_news "BTC" "a" "b" "c" ∧
    fetch_news "BTC" "symbol-only" none "a" "b" "c" ≠ [] :=
  ⟨(C9_fetch_news_caps_and_fallback "BTC" "symbol-only" none "a" "b" "c").2.1 rfl,
   (C9_fetch_news_caps_and_fallback "BTC" "symbol-only" none "a" "b" "c").2.2.2.2 (Or.inl rfl)⟩

/-- C9 counterexample: a successful news response with zero items under a
scope other than `symbol+macro` yields an empty news list, so the news
handed to the formatters can be empty. -/
theorem C9_empty_news_counterexample :
    fetch_news "BTC" "symbol-only" (some []) "a" "b" "c" = [] := by
  with_unfolding_all rfl

/-! ## C3: source tags -/

/-- C3 (amended): a snapshot built by a successful live fetch carries no
`source` key at all (not `"live"`), and the synthetic fallback stamps
`source = "mock_data"` (not `"synthetic"`); `"mock_data"` is the only
source value the fetch layer ever produces. -/
theorem C3_source_tags (symbol tf nowIso : String) (r : MockRand)
    (data : List Candle) (d : TVDict) :
    (live_tradingview_data symbol tf data nowIso = Except.ok d → d.source = none) ∧
    (mock_tradingview_data symbol tf r nowIso).source = some "mock_data" ∧
    ((fetch_tradingview_data symbol tf (some data) r nowIso).source = none ∨
      (fetch_tradingview_data symbol tf (some data) r nowIso).source = some "mock_data") ∧
    (fetch_tradingview_data symbol tf none r nowIso).source = some "mock_data" := by
  refine ⟨fun h => live_source_none h, rfl, ?_, rfl⟩
  simp only [fetch_tradingview_data]
  split
  · exact Or.inr rfl
  · split
    · next heq => exact Or.inl (live_source_none heq)
    · exact Or.inr rfl

set_option maxRecDepth 100000 in
/-- C3 witness: a concrete successful live fetch has no source tag. -/
theorem C3_source_tags_witness : dictW.source = none :=
  (C3_source_tags "BTC" "1h" "t" r0 dataW dictW).1 (by with_unfolding_all rfl)

set_option maxRecDepth 100000 in
/-- C3 counterexample: on a concrete failed fetch the fallback snapshot is
tagged `"mock_data"`, not `"synthetic"`, and a concrete successful live
fetch carries no `source` field, not `"live"`. -/
theorem C3_source_counterexample :
    (fetch_tradingview_data "BTC" "1h" none r0 "t").source = some "mock_data" ∧
    some "mock_data" ≠ some "synthetic" ∧
    (fetch_tradingview_data "BTC" "1h" (some [candle1]) r0 "t").source = none := by
  refine ⟨rfl, by decide, by with_unfolding_all rfl⟩

/-! ## RSI lemmas -/

theorem diffs_length (l : List ℚ) : (diffs l).length = l.length - 1 := by
  match l with
  | [] => rfl
  | [a] => rfl
  | a :: b :: r =>
    simp only [diffs, List.length_cons, diffs_length (b :: r)]
    omega

theorem diffs_pos (l : List ℚ) (h : List.Chain' (· < ·) l) : ∀ d ∈ diffs l, 0 < d := by
  match l with
  | [] => intro d hd; simp [diffs] at hd
  | [a] => intro d hd; simp [diffs] at hd
  | a :: b :: r =>
    intro d hd
    rw [List.chain'_cons] at h
    simp only [diffs, List.mem_cons] at hd
    rcases hd with rfl | hd
    · linarith [h.1]
    · exact diffs_pos (b :: r) h.2 d hd

theorem diffs_neg (l : List ℚ) (h : List.Chain' (· > ·) l) : ∀ d ∈ diffs l, d < 0 := by
  match l with
  | [] => intro d hd; simp [diffs] at hd
  | [a] => intro d hd; simp [diffs] at hd
  | a :: b :: r =>
    intro d hd
    rw [List.chain'_cons] at h
    simp only [diffs, List.mem_cons] at hd
    rcases hd with rfl | hd
    · have : b < a := h.1
      linarith
    · exact diffs_neg (b :: r) h.2 d hd

theorem diffs_zero (l : List ℚ) (h : ∀ x ∈ l, ∀ y ∈ l, x = y) : ∀ d ∈ diffs l, d = 0 := by
  match l with
  | [] => intro d hd; simp [diffs] at hd
  | [a] => intro d hd; simp [diffs] at hd
  | a :: b :: r =>
    intro d hd
    simp only [diffs, List.mem_cons] at hd
    rcases hd with rfl | hd
    · have hab : a = b := h a (by simp) b (by simp)
      rw [hab]; ring
    · refine diffs_zero (b :: r) ?_ d hd
      intro x hx y hy
      exact h x (List.mem_cons_of_mem a hx) y (List.mem_cons_of_mem a hy)

theorem gainsOf_nonneg (ds : List ℚ) : ∀ x ∈ gainsOf ds, 0 ≤ x := by
  intro x hx
  obtain ⟨d, hd, rfl⟩ := List.mem_map.mp hx
  split_ifs with h
  · linarith
  · exact le_refl 0

theorem lossesOf_nonneg (ds : List ℚ) : ∀ x ∈ lossesOf ds, 0 ≤ x := by
  intro x hx
  obtain ⟨d, hd, rfl⟩ := List.mem_map.mp hx
  split_ifs with h
  · exact le_refl 0
  · push_neg at h; linarith

theorem lossesOf_zero_of_pos (ds : List ℚ) (h : ∀ d ∈ ds, 0 < d) :
    ∀ x ∈ lossesOf ds, x = 0 := by
  intro x hx
  obtain ⟨d, hd, rfl⟩ := List.mem_map.mp hx
  rw [if_pos (h d hd)]

theorem lossesOf_zero_of_zero (ds : List ℚ) (h : ∀ d ∈ ds, d = 0) :
    ∀ x ∈ lossesOf ds, x = 0 := by
  intro x hx
  obtain ⟨d, hd, rfl⟩ := List.mem_map.mp hx
  rw [h d hd]
  norm_num

theorem gainsOf_zero_of_neg (ds : List ℚ) (h : ∀ d ∈ ds, d < 0) :
    ∀ x ∈ gainsOf ds, x = 0 := by
  intro x hx
  obtain ⟨d, hd, rfl⟩ := List.mem_map.mp hx
  rw [if_neg (by push_neg; linarith [h d hd])]

theorem lossesOf_pos_of_neg (ds : List ℚ) (h : ∀ d ∈ ds, d < 0) :
    ∀ x ∈ lossesOf ds, 0 < x := by
  intro x hx
  obtain ⟨d, hd, rfl⟩ := List.mem_map.mp hx
  rw [if_neg (by push_neg; linarith [h d hd])]
  linarith [h d hd]

theorem wilder_snd_nonneg (l : List (ℚ × ℚ)) : ∀ p : ℚ × ℚ, 0 ≤ p.2 →
    (∀ x ∈ l, 0 ≤ x.2) → 0 ≤ (l.foldl wilderStep p).2 := by
  induction l with
  | nil => intro p hp _; exact hp
  | cons x xs ih =>
    intro p hp hl
    simp only [List.foldl_cons]
    refine ih (wilderStep p x) ?_ (fun y hy => hl y (List.mem_cons_of_mem x hy))
    show 0 ≤ (p.2 * 13 + x.2) / 14
    exact div_nonneg (by linarith [hl x (List.mem_cons_self x xs)]) (by norm_num)

theorem wilder_snd_pos (l : List (ℚ × ℚ)) : ∀ p : ℚ × ℚ, 0 < p.2 →
    (∀ x ∈ l, 0 ≤ x.2) → 0 < (l.foldl wilderStep p).2 := by
  induction l with
  | nil => intro p hp _; exact hp
  | cons x xs ih =>
    intro p hp hl
    simp only [List.foldl_cons]
    refine ih (wilderStep p x) ?_ (fun y hy => hl y (List.mem_cons_of_mem x hy))
    show 0 < (p.2 * 13 + x.2) / 14
    exact div_pos (by linarith [hl x (List.mem_cons_self x xs)]) (by norm_num)

theorem wilder_snd_zero (l : List (ℚ × ℚ)) : ∀ p : ℚ × ℚ, p.2 = 0 →
    (∀ x ∈ l, x.2 = 0) → (l.foldl wilderStep p).2 = 0 := by
  induction l with
  | nil => intro p hp _; exact hp
  | cons x xs ih =>
    intro p hp hl
    simp only [List.foldl_cons]
    refine ih (wilderStep p x) ?_ (fun y hy => hl y (List.mem_cons_of_mem x hy))
    show (p.2 * 13 + x.2) / 14 = 0
    rw [hp, hl x (List.mem_cons_self x xs)]
    norm_num

theorem wilder_fst_nonneg (l : List (ℚ × ℚ)) : ∀ p : ℚ × ℚ, 0 ≤ p.1 →
    (∀ x ∈ l, 0 ≤ x.1) → 0 ≤ (l.foldl wilderStep p).1 := by
  induction l with
  | nil => intro p hp _; exact hp
  | cons x xs ih =>
    intro p hp hl
    simp only [List.foldl_cons]
    refine ih (wilderStep p x) ?_ (fun y hy => hl y (List.mem_cons_of_mem x hy))
    show 0 ≤ (p.1 * 13 + x.1) / 14
    exact div_nonneg (by linarith [hl x (List.mem_cons_self x xs)]) (by norm_num)

theorem wilder_fst_zero (l : List (ℚ × ℚ)) : ∀ p : ℚ × ℚ, p.1 = 0 →
    (∀ x ∈ l, x.1 = 0) → (l.foldl wilderStep p).1 = 0 := by
  induction l with
  | nil => intro p hp _; exact hp
  | cons x xs ih =>
    intro p hp hl
    simp only [List.foldl_cons]
    refine ih (wilderStep p x) ?_ (fun y hy => hl y (List.mem_cons_of_mem x hy))
    show (p.1 * 13 + x.1) / 14 = 0
    rw [hp, hl x (List.mem_cons_self x xs)]
    norm_num

theorem rsiAvgs_snd_zero (g l : List ℚ) (h : ∀ x ∈ l, x = 0) : (rsiAvgs g l).2 = 0 := by
  unfold rsiAvgs
  apply wilder_snd_zero
  · show ((l.take 14).sum / 14 : ℚ) = 0
    rw [List.sum_eq_zero (fun x hx => h x (List.take_subset _ _ hx))]
    norm_num
  · intro x hx
    exact h x.2 (List.drop_subset _ _ (List.of_mem_zip hx).2)

theorem rsiAvgs_fst_zero (g l : List ℚ) (h : ∀ x ∈ g, x = 0) : (rsiAvgs g l).1 = 0 := by
  unfold rsiAvgs
  apply wilder_fst_zero
  · show ((g.take 14).sum / 14 : ℚ) = 0
    rw [List.sum_eq_zero (fun x hx => h x (List.take_subset _ _ hx))]
    norm_num
  · intro x hx
    exact h x.1 (List.drop_subset _ _ (List.of_mem_zip hx).1)

theorem rsiAvgs_snd_nonneg (g l : List ℚ) (h : ∀ x ∈ l, 0 ≤ x) : 0 ≤ (rsiAvgs g l).2 := by
  unfold rsiAvgs
  apply wilder_snd_nonneg
  · show (0 : ℚ) ≤ (l.take 14).sum / 14
    exact div_nonneg (List.sum_nonneg (fun x hx => h x (List.take_subset _ _ hx))) (by norm_num)
  · intro x hx
    exact h x.2 (List.drop_subset _ _ (List.of_mem_zip hx).2)

theorem rsiAvgs_fst_nonneg (g l : List ℚ) (h : ∀ x ∈ g, 0 ≤ x) : 0 ≤ (rsiAvgs g l).1 := by
  unfold rsiAvgs
  apply wilder_fst_nonneg
  · show (0 : ℚ) ≤ (g.take 14).sum / 14
    exact div_nonneg (List.sum_nonneg (fun x hx => h x (List.take_subset _ _ hx))) (by norm_num)
  · intro x hx
    exact h x.1 (List.drop_subset _ _ (List.of_mem_zip hx).1)

theorem rsiAvgs_snd_pos (g l : List ℚ) (h : ∀ x ∈ l, 0 ≤ x)
    (hpos : 0 < (l.take 14).sum) : 0 < (rsiAvgs g l).2 := by
  unfold rsiAvgs
  apply wilder_snd_pos
  · show (0 : ℚ) < (l.take 14).sum / 14
    exact div_pos hpos (by norm_num)
  · intro x hx
    exact h x.2 (List.drop_subset _ _ (List.of_mem_zip hx).2)

theorem calc_rsi_lt14 (prices : List ℚ) (h : prices.length < 14) : calc_rsi prices = 50 := by
  unfold calc_rsi
  rw [if_pos h]

theorem calc_rsi_of_no_losses (prices : List ℚ) (h14 : 14 ≤ prices.length)
    (h : ∀ x ∈ lossesOf (diffs prices), x = 0) : calc_rsi prices = 100 := by
  unfold calc_rsi
  rw [if_neg (by omega), if_pos (rsiAvgs_snd_zero _ _ h)]

theorem calc_rsi_all_loss (prices : List ℚ) (h14 : 14 ≤ prices.length)
    (hneg : ∀ d ∈ diffs prices, d < 0) : calc_rsi prices = 0 := by
  have hg : ∀ x ∈ gainsOf (diffs prices), x = (0 : ℚ) := gainsOf_zero_of_neg _ hneg
  have hlpos : ∀ x ∈ lossesOf (diffs prices), 0 < x := lossesOf_pos_of_neg _ hneg
  have hlen : 13 ≤ (lossesOf (diffs prices)).length := by
    simp only [lossesOf, List.length_map, diffs_length]
    omega
  have htake : (lossesOf (diffs prices)).take 14 ≠ [] := by
    intro hnil
    rcases List.take_eq_nil_iff.mp hnil with h5 | hmap
    · exact absurd h5 (by norm_num)
    · rw [hmap] at hlen
      simp at hlen
  have hpos : 0 < ((lossesOf (diffs prices)).take 14).sum :=
    List.sum_pos _ (fun x hx => hlpos x (List.take_subset _ _ hx)) htake
  have h2 : 0 < (rsiAvgs (gainsOf (diffs prices)) (lossesOf (diffs prices))).2 :=
    rsiAvgs_snd_pos _ _ (fun x hx => le_of_lt (hlpos x hx)) hpos
  have h1 : (rsiAvgs (gainsOf (diffs prices)) (lossesOf (diffs prices))).1 = 0 :=
    rsiAvgs_fst_zero _ _ hg
  unfold calc_rsi
  rw [if_neg (by omega), if_neg (ne_of_gt h2), h1]
  norm_num

theorem calc_rsi_bounds (prices : List ℚ) :
    0 ≤ calc_rsi prices ∧ calc_rsi prices ≤ 100 := by
  unfold calc_rsi
  split_ifs with h1 h2
  · norm_num
  · norm_num
  · have hg0 : 0 ≤ (rsiAvgs (gainsOf (diffs prices)) (lossesOf (diffs prices))).1 :=
      rsiAvgs_fst_nonneg _ _ (gainsOf_nonneg _)
    have hl0 : 0 ≤ (rsiAvgs (gainsOf (diffs prices)) (lossesOf (diffs prices))).2 :=
      rsiAvgs_snd_nonneg _ _ (lossesOf_nonneg _)
    have hlpos : 0 < (rsiAvgs (gainsOf (diffs prices)) (lossesOf (diffs prices))).2 :=
      lt_of_le_of_ne hl0 (Ne.symm h2)
    have hrs : 0 ≤ (rsiAvgs (gainsOf (diffs prices)) (lossesOf (diffs prices))).1 /
        (rsiAvgs (gainsOf (diffs prices)) (lossesOf (diffs prices))).2 :=
      div_nonneg hg0 (le_of_lt hlpos)
    constructor
    · have hle := div_le_self (by norm_num : (0:ℚ) ≤ 100)
        (by linarith : (1:ℚ) ≤ 1 + (rsiAvgs (gainsOf (diffs prices)) (lossesOf (diffs prices))).1 /
          (rsiAvgs (gainsOf (diffs prices)) (lossesOf (diffs prices))).2)
      linarith
    · have hge : 0 ≤ (100 : ℚ) / (1 + (rsiAvgs (gainsOf (diffs prices)) (lossesOf (diffs prices))).1 /
          (rsiAvgs (gainsOf (diffs prices)) (lossesOf (diffs prices))).2) :=
        div_nonneg (by norm_num) (by linarith)
      linarith

/-! ## C5: RSI properties -/

/-- C5: `calc_rsi` returns exactly 50 below 14 samples; at least 50 on a
strictly increasing series of length ≥ 14 and at most 50 on a strictly
decreasing one; exactly 100 on a flat series of length ≥ 14 (the
`avg_loss == 0` branch, with no division fault); and the result always
lies in [0, 100]. -/
theorem C5_calc_rsi_spec (prices : List ℚ) :
    (prices.length < 14 → calc_rsi prices = 50) ∧
    (14 ≤ prices.length → List.Chain' (· < ·) prices → 50 ≤ calc_rsi prices) ∧
    (14 ≤ prices.length → List.Chain' (· > ·) prices → calc_rsi prices ≤ 50) ∧
    (14 ≤ prices.length → (∀ x ∈ prices, ∀ y ∈ prices, x = y) → calc_rsi prices = 100) ∧
    0 ≤ calc_rsi prices ∧ calc_rsi prices ≤ 100 := by
  refine ⟨fun h => calc_rsi_lt14 prices h, ?_, ?_, ?_, calc_rsi_bounds prices⟩
  · intro h14 hchain
    rw [calc_rsi_of_no_losses prices h14
      (lossesOf_zero_of_pos _ (diffs_pos prices hchain))]
    norm_num
  · intro h14 hchain
    rw [calc_rsi_all_loss prices h14 (diffs_neg prices hchain)]
    norm_num
  · intro h14 hflat
    exact calc_rsi_of_no_losses prices h14
      (lossesOf_zero_of_zero _ (diffs_zero prices hflat))

/-- C5 witness: the four behaviours at concrete 14-sample inputs. -/
theorem C5_calc_rsi_witness :
    calc_rsi [1] = 50 ∧ 50 ≤ calc_rsi incList ∧ calc_rsi decList ≤ 50 ∧
    calc_rsi flatList = 100 :=
  ⟨(C5_calc_rsi_spec [1]).1 (by simp),
   (C5_calc_rsi_spec incList).2.1 (by simp [incList]) (by simp [incList]; norm_num),
   (C5_calc_rsi_spec decList).2.2.1 (by simp [decList]) (by simp [decList]; norm_num),
   (C5_calc_rsi_spec flatList).2.2.2.1 (by simp [flatList])
     (fun x hx y hy => (List.eq_of_mem_replicate hx).trans
       (List.eq_of_mem_replicate hy).symm)⟩

/-! ## C6: EMA properties -/

theorem emaFrom_length (mult last : ℚ) (xs : List ℚ) :
    (emaFrom mult last xs).length = xs.length := by
  induction xs generalizing last with
  | nil => rfl
  | cons p ps ih => simp [emaFrom, ih]

theorem emaFrom_getD (mult : ℚ) (xs : List ℚ) : ∀ (last : ℚ) (i : ℕ), i < xs.length →
    (last :: emaFrom mult last xs).getD (i + 1) 0 =
      (xs.getD i 0 - (last :: emaFrom mult last xs).getD i 0) * mult +
        (last :: emaFrom mult last xs).getD i 0 := by
  induction xs with
  | nil => intro last i h; simp at h
  | cons p ps ih =>
    intro last i h
    cases i with
    | zero => simp [emaFrom]
    | succ j =>
      have hj : j < ps.length := by simpa using h
      simp only [emaFrom, List.getD_cons_succ]
      exact ih ((p - last) * mult + last) j hj

/-- C6: `calc_ema` returns the empty list iff the series is shorter than the
period; otherwise its length is `len - period + 1`, its first element is the
simple mean of the first `period` prices, and each subsequent element
follows the exponential recurrence with multiplier `2/(period+1)`. -/
theorem C6_calc_ema_spec (prices : List ℚ) (period : ℕ) :
    (calc_ema prices period = [] ↔ prices.length < period) ∧
    (period ≤ prices.length →
      (calc_ema prices period).length = prices.length - period + 1) ∧
    (period ≤ prices.length →
      (calc_ema prices period).headD 0 = (prices.take period).sum / (period : ℚ)) ∧
    (∀ i, i + 1 < (calc_ema prices period).length →
      (calc_ema prices period).getD (i + 1) 0 =
        ((prices.drop period).getD i 0 - (calc_ema prices period).getD i 0) *
          (2 / ((period : ℚ) + 1)) + (calc_ema prices period).getD i 0) := by
  refine ⟨⟨?_, ?_⟩, ?_, ?_, ?_⟩
  · intro h
    by_contra hlt
    rw [calc_ema, if_neg hlt] at h
    simp at h
  · intro h
    rw [calc_ema, if_pos h]
  · intro h
    unfold calc_ema
    rw [if_neg (by omega)]
    simp [emaFrom_length, List.length_drop]
  · intro h
    unfold calc_ema
    rw [if_neg (by omega)]
    rfl
  · intro i hi
    by_cases h : prices.length < period
    · rw [calc_ema, if_pos h] at hi
      simp at hi
    · unfold calc_ema at hi ⊢
      rw [if_neg h] at hi ⊢
      have hi' : i < (prices.drop period).length := by
        simpa [emaFrom_length] using hi
      exact emaFrom_getD (2 / ((period : ℚ) + 1)) (prices.drop period)
        ((prices.take period).sum / (period : ℚ)) i hi'

/-- C6 witness: the EMA of a concrete four-sample series with period two. -/
theorem C6_calc_ema_witness :
    (calc_ema [1, 2, 3, 4] 2).length = ([1, 2, 3, 4] : List ℚ).length - 2 + 1 ∧
    (calc_ema [1, 2, 3, 4] 2).headD 0 = (([1, 2, 3, 4] : List ℚ).take 2).sum / (2 : ℚ) ∧
    (calc_ema [1, 2, 3, 4] 2).getD 1 0 =
      ((([1, 2, 3, 4] : List ℚ).drop 2).getD 0 0 - (calc_ema [1, 2, 3, 4] 2).getD 0 0) *
        (2 / ((2 : ℚ) + 1)) + (calc_ema [1, 2, 3, 4] 2).getD 0 0 :=
  ⟨(C6_calc_ema_spec [1, 2, 3, 4] 2).2.1 (by simp),
   (C6_calc_ema_spec [1, 2, 3, 4] 2).2.2.1 (by simp),
   (C6_calc_ema_spec [1, 2, 3, 4] 2).2.2.2 0 (by
     rw [(C6_calc_ema_spec [1, 2, 3, 4] 2).2.1 (by simp)]
     simp)⟩

/-! ## C10: the live RSI never smooths -/

theorem calc_rsi_len14_eq_seed (l : List ℚ) (h : l.length = 14) :
    calc_rsi l = rsiSeedOnly l := by
  have hdl : (diffs l).length = 13 := by rw [diffs_length, h]
  have hglen : (gainsOf (diffs l)).length = 13 := by simp [gainsOf, hdl]
  have hllen : (lossesOf (diffs l)).length = 13 := by simp [lossesOf, hdl]
  have h1 : (gainsOf (diffs l)).drop 14 = [] := List.drop_eq_nil_of_le (by omega)
  have h3 : (gainsOf (diffs l)).take 14 = gainsOf (diffs l) :=
    List.take_of_length_le (by omega)
  have h4 : (lossesOf (diffs l)).take 14 = lossesOf (diffs l) :=
    List.take_of_length_le (by omega)
  have havg : rsiAvgs (gainsOf (diffs l)) (lossesOf (diffs l)) =
      ((gainsOf (diffs l)).sum / 14, (lossesOf (diffs l)).sum / 14) := by
    unfold rsiAvgs
    rw [h1, h3, h4]
    simp
  unfold calc_rsi rsiSeedOnly
  rw [if_neg (by omega), havg]

/-- C10 (amended): on any successful live fetch with at least 14 candles the
reported RSI is exactly the seed-only value `100 - 100/(1 + G/L)` of the
last 14 closes (100 when `L = 0`): the Wilder smoothing loop never runs
because 14 closes yield only 13 differences.  (With fewer than 14 candles
the code instead reports the neutral 50 — see the counterexample.) -/
theorem C10_live_rsi_seed_only (symbol tf nowIso : String) (data : List Candle)
    (d : TVDict) (h14 : 14 ≤ data.length)
    (h : live_tradingview_data symbol tf data nowIso = Except.ok d) :
    d.rsi = some (rsiSeedOnly ((data.map Candle.c).drop (data.length - 14))) := by
  have hlen : ((data.map Candle.c).drop ((data.map Candle.c).length - 14)).length = 14 := by
    simp only [List.length_drop, List.length_map]
    omega
  simp only [live_tradingview_data] at h
  split at h <;> simp only [Except.ok.injEq, reduceCtorEq] at h <;> subst h <;>
    · show some (calc_rsi _) = _
      rw [calc_rsi_len14_eq_seed _ hlen]
      simp [List.length_map]

set_option maxRecDepth 100000 in
/-- C10 witness: a concrete 14-candle live fetch whose RSI is the seed-only
value. -/
theorem C10_live_rsi_witness :
    dictW.rsi = some (rsiSeedOnly ((dataW.map Candle.c).drop (dataW.length - 14))) :=
  C10_live_rsi_seed_only "BTC" "1h" "t" dataW dictW (by simp [dataW])
    (by with_unfolding_all rfl)

set_option maxRecDepth 100000 in
/-- C10 counterexample: a successful live fetch with only two candles
reports the neutral RSI 50, not the seed-only value (which is 100 there),
so the claim fails without the 14-candle hypothesis. -/
theorem C10_short_history_counterexample :
    (fetch_tradingview_data "BTC" "1h" (some [candle1, candle2]) r0 "t").rsi = some 50 ∧
    rsiSeedOnly (([candle1, candle2].map Candle.c).drop ([candle1, candle2].length - 14)) = 100 ∧
    (50 : ℚ) ≠ 100 := by
  refine ⟨by with_unfolding_all rfl, by with_unfolding_all rfl, by norm_num⟩

/-! ## Formatter totality and non-emptiness helpers -/

theorem quick_bias_ne_empty (s m t : String) (tv : TVDict) (news : List NewsItem) :
    format_quick_bias s m t tv news ≠ "" := by
  unfold format_quick_bias
  repeat (apply append_ne_empty)
  decide

theorem news_briefing_ne_empty (s : String) (news : List NewsItem) (md : MarketDataDict) :
    format_news_briefing s news md ≠ "" := by
  unfold format_news_briefing
  repeat (apply append_ne_empty)
  decide

theorem risk_only_ok_ne_empty {s : String} {tv : TVDict} {md : MarketDataDict}
    {r : String} (h : format_risk_only s tv md = Except.ok r) : r ≠ "" := by
  unfold format_risk_only at h
  split at h
  · simp at h
  · simp only [Except.ok.injEq] at h
    subst h
    repeat (apply append_ne_empty)
    decide

theorem full_plan_ok_ne_empty {s m t : String} {tv : TVDict} {md : MarketDataDict}
    {news : List NewsItem} {ck : String} {r : String}
    (h : format_full_plan s m t tv md news ck = Except.ok r) : r ≠ "" := by
  simp only [format_full_plan] at h
  split at h
  · simp at h
  · split at h
    · simp at h
    · simp only [Except.ok.injEq] at h
      subst h
      repeat (apply append_ne_empty)
      decide

theorem format_output_ok_ne_empty {s m t : String} {tv : TVDict} {md : MarketDataDict}
    {news : List NewsItem} {mode ck : String} {r : String}
    (h : format_output s m t tv md news mode ck = Except.ok r) : r ≠ "" := by
  unfold format_output at h
  split at h
  · simp only [Except.ok.injEq] at h
    subst h
    exact quick_bias_ne_empty s m t tv news
  · split at h
    · exact risk_only_ok_ne_empty h
    · split at h
      · simp only [Except.ok.injEq] at h
        subst h
        exact news_briefing_ne_empty s news md
      · exact full_plan_ok_ne_empty h

/-! ## C4: formatter behaviour on missing optional fields -/

/-- C4 (amended): the quick-bias and news-briefing formatters are total on
any snapshot (every field is read through a default), the risk-only
formatter succeeds whenever the snapshot price is absent (the default 1
guards its division), and the full-trade-plan formatter succeeds whenever a
slash-separated timezone is present — but it faults (AttributeError on
`None.split`) exactly when the optional `timezone` field is absent, the one
snapshot read without a default. -/
theorem C4_formatters_defaults (tv : TVDict) (md : MarketDataDict)
    (news : List NewsItem) (s m t ck : String) :
    format_quick_bias s m t tv news ≠ "" ∧
    (tv.current_price = none → ∃ out, format_risk_only s tv md = Except.ok out) ∧
    format_news_briefing s news md ≠ "" ∧
    (tv.timezone = none → format_full_plan s m t tv md news ck =
      Except.error "NoneType object has no attribute split") ∧
    (∀ tz, tv.timezone = some tz → 2 ≤ (tz.splitOn "/").length →
      ∃ out, format_full_plan s m t tv md news ck = Except.ok out) := by
  refine ⟨quick_bias_ne_empty s m t tv news, ?_, news_briefing_ne_empty s news md, ?_, ?_⟩
  · intro h
    unfold format_risk_only
    simp only [h, Option.getD_none]
    rw [if_neg (by norm_num)]
    exact ⟨_, rfl⟩
  · intro h
    unfold format_full_plan
    rw [h]
  · intro tz htz hlen
    unfold format_full_plan
    rw [htz]
    dsimp only
    cases hc : (tz.splitOn "/").get? 1 with
    | none =>
      have := List.get?_eq_none.mp hc
      omega
    | some region =>
      exact ⟨_, rfl⟩

/-- C4 witness: on the all-absent snapshot the risk-only formatter returns a
report, and with only the timezone present the full plan also returns one. -/
theorem C4_formatters_defaults_witness :
    (∃ out, format_risk_only "BTC" noneTV noneMD = Except.ok out) ∧
    (∃ out, format_full_plan "BTC" "crypto" "1h"
      { noneTV with timezone := some "America/Los_Angeles" } noneMD [] "now" =
        Except.ok out) :=
  ⟨(C4_formatters_defaults noneTV noneMD [] "BTC" "crypto" "1h" "now").2.1 rfl,
   (C4_formatters_defaults { noneTV with timezone := some "America/Los_Angeles" }
       noneMD [] "BTC" "crypto" "1h" "now").2.2.2.2 "America/Los_Angeles" rfl
     (by
       have hs : "America/Los_Angeles".splitOn "/" = ["America", "Los_Angeles"] := by
         with_unfolding_all rfl
       rw [hs]
       decide)⟩

/-- C4 counterexample: the full-trade-plan formatter faults (it does not
return a string) on a snapshot whose optional `timezone` field is absent,
because `tradingview.get('timezone')` has no default and `None.split`
raises. -/
theorem C4_missing_timezone_counterexample :
    format_full_plan "BTC" "crypto" "1h" noneTV noneMD [] "now" =
      Except.error "NoneType object has no attribute split" := rfl

/-! ## C2: the entry point always answers -/

theorem analyze_market_ne_empty (symbol market timeframe output_mode news_scope : String)
    (tvResp : Option (List Candle)) (mdResp : Option (Option (ℚ × Option ℚ)))
    (newsResp : Option (List NewsApiItem)) (tvRand : MockRand) (mdRand : MDRand)
    (ck : Clock) :
    analyze_market symbol market timeframe output_mode news_scope tvResp mdResp
      newsResp tvRand mdRand ck ≠ "" := by
  unfold analyze_market
  cases h : analyze_symbol symbol market timeframe output_mode news_scope tvResp
      mdResp newsResp tvRand mdRand ck with
  | ok s =>
    unfold analyze_symbol at h
    exact format_output_ok_ne_empty h
  | error e => exact append_ne_empty _ _ (by decide)

theorem analyze_quick_bias_mock_eq (symbol market timeframe news_scope : String)
    (mdResp : Option (Option (ℚ × Option ℚ))) (newsResp : Option (List NewsApiItem))
    (tvRand : MockRand) (mdRand : MDRand) (ck : Clock) :
    analyze_market symbol market timeframe "quick bias" news_scope none mdResp
      newsResp tvRand mdRand ck =
    format_quick_bias symbol market timeframe
      (mock_tradingview_data symbol timeframe tvRand ck.iso)
      (fetch_news symbol news_scope newsResp ck.t2h ck.t8h ck.t1d) := rfl

/-- C2: `analyze_market` is total and never returns an empty string: every
orchestration error is caught and rendered with the `❌ MarketIntel error:`
marker prefix; and on a data-source failure for symbol "ZZZ" the quick-bias
output is a non-empty string containing the literal "ZZZ" and a trend label
drawn from Bullish/Bearish/Neutral. -/
theorem C2_analyze_market_robust (symbol market timeframe output_mode news_scope : String)
    (tvResp : Option (List Candle)) (mdResp : Option (Option (ℚ × Option ℚ)))
    (newsResp : Option (List NewsApiItem)) (tvRand : MockRand) (mdRand : MDRand)
    (ck : Clock) :
    analyze_market symbol market timeframe output_mode news_scope tvResp mdResp
      newsResp tvRand mdRand ck ≠ "" ∧
    analyze_market symbol market timeframe output_mode news_scope tvResp mdResp
      newsResp tvRand mdRand ck =
      (match analyze_symbol symbol market timeframe output_mode news_scope tvResp
          mdResp newsResp tvRand mdRand ck with
        | Except.ok result => result
        | Except.error e => "❌ MarketIntel error: " ++ e) ∧
    analyze_market "ZZZ" market timeframe "quick bias" news_scope none mdResp
      newsResp tvRand mdRand ck ≠ "" ∧
    strContains (analyze_market "ZZZ" market timeframe "quick bias" news_scope none
      mdResp newsResp tvRand mdRand ck) "ZZZ" ∧
    (∃ label, label ∈ (["Bullish", "Bearish", "Neutral"] : List String) ∧
      strContains (analyze_market "ZZZ" market timeframe "quick bias" news_scope none
        mdResp newsResp tvRand mdRand ck) label) := by
  refine ⟨analyze_market_ne_empty symbol market timeframe output_mode news_scope
      tvResp mdResp newsResp tvRand mdRand ck, rfl,
    analyze_market_ne_empty "ZZZ" market timeframe "quick bias" news_scope none
      mdResp newsResp tvRand mdRand ck, ?_, ?_⟩
  · rw [analyze_quick_bias_mock_eq]
    unfold format_quick_bias
    repeat (first | exact strContains_append_self _ _ | apply strContains_left)
  · rw [analyze_quick_bias_mock_eq]
    unfold format_quick_bias
    have htrend : (mock_tradingview_data "ZZZ" timeframe tvRand ck.iso).trend =
        some (if tvRand.coin1 < 0.5 then "Neutral"
          else if tvRand.coin2 < 0.7 then "Bullish" else "Bearish") := rfl
    rw [htrend]
    simp only [Option.getD_some]
    by_cases h1 : tvRand.coin1 < (0.5 : ℚ)
    · rw [if_pos h1]
      refine ⟨"Neutral", by simp, ?_⟩
      repeat (first | exact strContains_append_self _ _ | apply strContains_left)
    · rw [if_neg h1]
      by_cases h2 : tvRand.coin2 < (0.7 : ℚ)
      · rw [if_pos h2]
        refine ⟨"Bullish", by simp, ?_⟩
        repeat (first | exact strContains_append_self _ _ | apply strContains_left)
      · rw [if_neg h2]
        refine ⟨"Bearish", by simp, ?_⟩
        repeat (first | exact strContains_append_self _ _ | apply strContains_left)
